import Mathlib

/-!
Shallow embedding of the reconciliation / QA core of the rdm-datalab-pipelines
repository (qa/abs_reconciliation.py, qa/qcew_reconciliation.py, qa/utils.py,
scripts/integration/econ_bnchmrk_abs_qcew_merge.py).

Conventions of the embedding:
* A pandas cell that went through `pd.to_numeric(errors="coerce")` is `Option ℚ`
  (`none` = NaN / missing).  Finite float arithmetic is modelled by exact
  rational arithmetic.
* A raw CSV / API value is `Option String` (`none` = Python `None`).
* The result of Python `float(...)` is `PyFloat`: a finite rational, an
  infinity, or NaN (`float` accepts "inf", "infinity" and "nan").
* Fallible Python code (raising) is `Except`.
-/

namespace RdmQa

/-- Python float values: finite (modelled exactly as a rational), infinities,
and NaN.  Used where the scripts hold the direct result of `float(...)`. -/
inductive PyFloat where
  | finite : ℚ → PyFloat
  | posInf : PyFloat
  | negInf : PyFloat
  | nan : PyFloat
deriving DecidableEq

/-- Characters removed by Python `str.strip()` (ASCII whitespace). -/
def pyIsSpace (c : Char) : Bool :=
  c = ' ' || c = '\t' || c = '\n' || c = '\r' || c = '\x0b' || c = '\x0c'

/-- Python `str.strip()`: drop leading and trailing whitespace. -/
def pyStrip (s : String) : String :=
  String.mk (((s.data.dropWhile pyIsSpace).reverse.dropWhile pyIsSpace).reverse)

/-- Decimal digit run as accepted by `float(...)`: digits with single
underscores allowed only between two digits.  Returns the digits (underscores
removed) and the unconsumed rest. -/
def takeDigits : List Char → List Char × List Char
  | [] => ([], [])
  | [c] => if c.isDigit then ([c], []) else ([], [c])
  | c :: c2 :: cs =>
    if c.isDigit then
      if c2 = '_' then
        match cs with
        | c3 :: cs3 =>
          if c3.isDigit then
            let r := takeDigits (c3 :: cs3)
            (c :: r.1, r.2)
          else ([c], c2 :: cs)
        | [] => ([c], [c2])
      else
        let r := takeDigits (c2 :: cs)
        (c :: r.1, r.2)
    else ([], c :: c2 :: cs)

/-- Numeric value of a digit run. -/
def digitsToNat (ds : List Char) : ℕ :=
  ds.foldl (fun n c => n * 10 + (c.toNat - '0'.toNat)) 0

/-- Strip one optional leading sign; returns (isNegative, rest). -/
def stripSign : List Char → Bool × List Char
  | '+' :: cs => (false, cs)
  | '-' :: cs => (true, cs)
  | cs => (false, cs)

/-- Exponent part of a float literal (the characters after `e`/`E`): an
optional sign followed by a digit run consuming everything. -/
def parseExpDigits (cs : List Char) : Option ℤ :=
  let sg := stripSign cs
  let d := takeDigits sg.2
  if d.1.isEmpty then none
  else if !d.2.isEmpty then none
  else if sg.1 then some (-(digitsToNat d.1 : ℤ)) else some ((digitsToNat d.1 : ℤ))

/-- ASCII lower-casing of one character (model of `str.lower` for the ASCII
column names and keywords the scripts compare). -/
def lowerAscii (c : Char) : Char :=
  if 'A' ≤ c ∧ c ≤ 'Z' then Char.ofNat (c.toNat + 32) else c

/-- Model of Python `str.lower()` (ASCII). -/
def pyLower (s : String) : String :=
  String.mk (s.data.map lowerAscii)

/-- Model of Python `float(text)` on a text value: strips whitespace, accepts
an optional sign followed by `inf`/`infinity`/`nan` (case-insensitive) or a
decimal literal `[digits][.digits][(e|E)[sign]digits]` with at least one
mantissa digit; `none` when the text is not a float literal (Python raises
`ValueError` there). -/
def pyFloatOfString (s : String) : Option PyFloat :=
  let cs0 := (pyStrip s).data
  let sg := stripSign cs0
  let low := String.mk (sg.2.map lowerAscii)
  if low = "inf" ∨ low = "infinity" then
    some (if sg.1 then PyFloat.negInf else PyFloat.posInf)
  else if low = "nan" then some PyFloat.nan
  else
    let ip := takeDigits sg.2
    let fr : Option (List Char) × List Char :=
      match ip.2 with
      | '.' :: rest =>
        let f := takeDigits rest
        (some f.1, f.2)
      | other => (none, other)
    let mantissa := ip.1 ++ (fr.1.getD [])
    if mantissa.isEmpty then none
    else
      let fracLen : ℕ := (fr.1.getD []).length
      let expPart : Option ℤ :=
        match fr.2 with
        | [] => some 0
        | 'e' :: rest => parseExpDigits rest
        | 'E' :: rest => parseExpDigits rest
        | _ => none
      match expPart with
      | none => none
      | some e =>
        let mag : ℚ := (digitsToNat mantissa : ℚ) * (10 : ℚ) ^ (e - (fracLen : ℤ))
        some (PyFloat.finite (if sg.1 then -mag else mag))

/-- Python `sep.join(xs)` for a list of strings. -/
def pyJoin (sep : String) : List String → String
  | [] => ""
  | [x] => x
  | x :: xs => x ++ sep ++ pyJoin sep xs

/-- Python `str.zfill(width)`: left-pad with `'0'` up to `width`, keeping a
leading sign in front of the padding; strings already at least `width` long
are returned unchanged. -/
def pyZfill (s : String) (width : ℕ) : String :=
  if width ≤ s.length then s
  else
    let pad := List.replicate (width - s.length) '0'
    match s.data with
    | '+' :: rest => String.mk ('+' :: (pad ++ rest))
    | '-' :: rest => String.mk ('-' :: (pad ++ rest))
    | _ => String.mk (pad ++ s.data)

/-- Python string slicing `s[:n]` (by code points). -/
def strTake (s : String) (n : ℕ) : String :=
  String.mk (s.data.take n)

/-- Python string slicing `s[n:]` (by code points). -/
def strDrop (s : String) (n : ℕ) : String :=
  String.mk (s.data.drop n)

/-- NaN-propagating subtraction of two numeric cells (pandas column
subtraction). -/
def optSub (a b : Option ℚ) : Option ℚ :=
  match a, b with
  | some x, some y => some (x - y)
  | _, _ => none

/-- View of a numeric cell as the Python float stored in a pandas float
column: a missing cell is the float NaN (not Python `None`). -/
def toPy (a : Option ℚ) : Option PyFloat :=
  match a with
  | none => some PyFloat.nan
  | some q => some (PyFloat.finite q)

/-- Float division for the values that can reach `safe_divide`'s final branch
(denominator not NaN and not zero).  The zero-denominator case is unreachable
there; the model returns NaN for it. -/
def pyDiv : PyFloat → PyFloat → PyFloat
  | PyFloat.finite a, PyFloat.finite b => if b = 0 then PyFloat.nan else PyFloat.finite (a / b)
  | PyFloat.finite _, PyFloat.posInf => PyFloat.finite 0
  | PyFloat.finite _, PyFloat.negInf => PyFloat.finite 0
  | PyFloat.posInf, PyFloat.finite b => if b < 0 then PyFloat.negInf else PyFloat.posInf
  | PyFloat.negInf, PyFloat.finite b => if b < 0 then PyFloat.posInf else PyFloat.negInf
  | PyFloat.nan, _ => PyFloat.nan
  | _, PyFloat.nan => PyFloat.nan
  | _, _ => PyFloat.nan

/-- Multiplication of a Python float by the integer literal 1000 (the
thousands-of-dollars scaling in the Census fetchers). -/
def mul1000 : PyFloat → PyFloat
  | PyFloat.finite q => PyFloat.finite (q * 1000)
  | PyFloat.posInf => PyFloat.posInf
  | PyFloat.negInf => PyFloat.negInf
  | PyFloat.nan => PyFloat.nan

/-- `pyIsNan f` iff `f` is the float NaN. -/
def pyIsNan : PyFloat → Bool
  | PyFloat.nan => true
  | _ => false

/-- Code points of a string; Python compares strings by code points. -/
def strKey (s : String) : List ℕ :=
  s.data.map Char.toNat

/-- Python string order (lexicographic on code points). -/
def strLE (s t : String) : Prop :=
  strKey s ≤ strKey t

instance : DecidableRel strLE :=
  fun s t => inferInstanceAs (Decidable (strKey s ≤ strKey t))

/-- Python `sorted(...)` on a list of strings. -/
def pySortedStrings (l : List String) : List String :=
  List.insertionSort strLE l

namespace QaUtils

/-- `qa/utils.py::safe_divide`: `numerator/denominator`, or `None` when the
numerator is `None`, the denominator is `None` or equals 0, or either is NaN. -/
def safe_divide (numerator denominator : Option PyFloat) : Option PyFloat :=
  match numerator, denominator with
  | none, _ => none
  | _, none => none
  | some n, some d =>
    if d = PyFloat.finite 0 then none
    else if pyIsNan d then none
    else if pyIsNan n then none
    else some (pyDiv n d)

end QaUtils

namespace AbsRecon

/-- `qa/abs_reconciliation.py::SUPPRESSED_VALUES`. -/
def SUPPRESSED_VALUES : List String :=
  ["", "D", "N", "S", "NA", "N/A", "(D)", "(N)", "(S)"]

/-- `qa/abs_reconciliation.py::_parse_numeric`. -/
def _parse_numeric (value : Option String) : Option PyFloat × Option String :=
  match value with
  | none => (none, some "source_missing")
  | some v =>
    let text := pyStrip v
    if text ∈ SUPPRESSED_VALUES then (none, some "source_suppressed")
    else
      match pyFloatOfString text with
      | some f => (some f, none)
      | none => (none, some "source_non_numeric")

/-- One Census ABS API record, as the dict produced by `parse_census_payload`
(`none` = key absent, so `record.get(...)` returns `None`).  `notes` is the
error note `_fetch_census_slice` may have put into the record. -/
structure CensusRecord where
  notes : Option String
  FIRMPDEMP : Option String
  EMP : Option String
  PAYANN : Option String
  RCPPDEMP : Option String
deriving DecidableEq

/-- The metric fields of one output row of the Census fetchers. -/
structure CensusFields where
  source_census_firmpdemp : Option PyFloat
  source_census_emp : Option PyFloat
  source_census_payann_usd : Option PyFloat
  source_census_rcppdemp_usd : Option PyFloat
  notes : String
deriving DecidableEq

/-- `payann * 1000 if payann is not None else None`. -/
def scale1000 (v : Option PyFloat) : Option PyFloat :=
  match v with
  | none => none
  | some f => some (mul1000 f)

/-- Row construction of `fetch_census_data` (county loop body, lines 174-203):
parse the four metrics, scale PAYANN/RCPPDEMP from $1,000s to USD, and join
the collected notes. -/
def census_fields (rec : CensusRecord) : CensusFields :=
  let notes0 : List String := match rec.notes with | some n => [n] | none => []
  let firm := _parse_numeric rec.FIRMPDEMP
  let emp := _parse_numeric rec.EMP
  let payann := _parse_numeric rec.PAYANN
  let rcpt := _parse_numeric rec.RCPPDEMP
  let notes := notes0 ++ [firm.2, emp.2, payann.2, rcpt.2].filterMap id
  { source_census_firmpdemp := firm.1
    source_census_emp := emp.1
    source_census_payann_usd := scale1000 payann.1
    source_census_rcppdemp_usd := scale1000 rcpt.1
    notes := if notes.isEmpty then "" else pyJoin ";" (pySortedStrings notes.dedup) }

/-- Row construction of `fetch_census_data_states` (state bulk loop body,
lines 260-288); it does not look at a record-level note. -/
def census_state_fields (rec : CensusRecord) : CensusFields :=
  let firm := _parse_numeric rec.FIRMPDEMP
  let emp := _parse_numeric rec.EMP
  let payann := _parse_numeric rec.PAYANN
  let rcpt := _parse_numeric rec.RCPPDEMP
  let notes := [firm.2, emp.2, payann.2, rcpt.2].filterMap id
  { source_census_firmpdemp := firm.1
    source_census_emp := emp.1
    source_census_payann_usd := scale1000 payann.1
    source_census_rcppdemp_usd := scale1000 rcpt.1
    notes := if notes.isEmpty then "" else pyJoin ";" (pySortedStrings notes.dedup) }

/-- County key normalization in `fetch_census_data` (lines 169-171):
`county = str(county).zfill(5)`, `state_fips = county[:2]`,
`county_fips = county[2:]`. -/
def fetch_census_county_key (county : String) : String × String × String :=
  let c := pyZfill county 5
  (c, strTake c 2, strDrop c 2)

/-- Key normalization applied to every merged row of `reconcile_abs`
(lines 406-408). -/
def reconcile_key_fields (s : String) : String × String × String :=
  let k := pyZfill s 5
  (k, strTake k 2, strDrop k 2)

/-- `fetch_rdm_abs` on a CSV: county zero-fill (line 312). -/
def rdm_csv_fips (s : String) : String := pyZfill s 5

/-- `fetch_rdm_abs` on a CSV: NAICS2 zero-fill (line 313). -/
def rdm_csv_naics (s : String) : String := pyZfill s 2

/-- One merged row of `reconcile_abs` after `pd.to_numeric(errors="coerce")`
on the eight metric columns; `notes` is the source notes column (NaN for rows
that came only from the RDM side of the outer merge). -/
structure MergedRow where
  source_census_firmpdemp : Option ℚ
  source_census_emp : Option ℚ
  source_census_payann_usd : Option ℚ
  source_census_rcppdemp_usd : Option ℚ
  rdm_abs_firms : Option ℚ
  rdm_abs_emp : Option ℚ
  rdm_abs_payroll_usd_amt : Option ℚ
  rdm_abs_rcpt_usd_amt : Option ℚ
  notes : Option String
deriving DecidableEq

def delta_firms (r : MergedRow) : Option ℚ :=
  optSub r.rdm_abs_firms r.source_census_firmpdemp

def delta_emp (r : MergedRow) : Option ℚ :=
  optSub r.rdm_abs_emp r.source_census_emp

def delta_payroll_usd (r : MergedRow) : Option ℚ :=
  optSub r.rdm_abs_payroll_usd_amt r.source_census_payann_usd

def delta_receipts_usd (r : MergedRow) : Option ℚ :=
  optSub r.rdm_abs_rcpt_usd_amt r.source_census_rcppdemp_usd

def delta_firms_pct (r : MergedRow) : Option PyFloat :=
  QaUtils.safe_divide (toPy (delta_firms r)) (toPy r.source_census_firmpdemp)

def delta_emp_pct (r : MergedRow) : Option PyFloat :=
  QaUtils.safe_divide (toPy (delta_emp r)) (toPy r.source_census_emp)

def delta_payroll_pct (r : MergedRow) : Option PyFloat :=
  QaUtils.safe_divide (toPy (delta_payroll_usd r)) (toPy r.source_census_payann_usd)

def delta_receipts_pct (r : MergedRow) : Option PyFloat :=
  QaUtils.safe_divide (toPy (delta_receipts_usd r)) (toPy r.source_census_rcppdemp_usd)

/-- `reconcile_abs::_pass_exact` (lines 443-446). -/
def _pass_exact (delta left right : Option ℚ) : Bool :=
  if left.isNone || right.isNone then false
  else
    match delta with
    | some d => decide (d = 0)
    | none => false

/-- `reconcile_abs::_pass_tol` (lines 448-451): absolute-deviation tolerance. -/
def _pass_tol (delta left right : Option ℚ) (tol : ℚ) : Bool :=
  if left.isNone || right.isNone then false
  else
    match delta with
    | some d => decide (|d| ≤ tol)
    | none => false

def pass_firms (r : MergedRow) : Bool :=
  _pass_exact (delta_firms r) r.rdm_abs_firms r.source_census_firmpdemp

def pass_emp (r : MergedRow) : Bool :=
  _pass_exact (delta_emp r) r.rdm_abs_emp r.source_census_emp

def pass_payroll (r : MergedRow) : Bool :=
  _pass_tol (delta_payroll_usd r) r.rdm_abs_payroll_usd_amt r.source_census_payann_usd 1000

def pass_receipts (r : MergedRow) : Bool :=
  _pass_tol (delta_receipts_usd r) r.rdm_abs_rcpt_usd_amt r.source_census_rcppdemp_usd 1000

def pass_all (r : MergedRow) : Bool :=
  pass_firms r && pass_emp r && pass_payroll r && pass_receipts r

/-- The notes rewrite of `reconcile_abs` (lines 471-486) for one row: keep the
source notes (NaN becomes the empty string), append the missing-side flag
derived from the two firms columns, and join with ";". -/
def row_notes (r : MergedRow) : String :=
  let base : String := match r.notes with | none => "" | some s => s
  let flags0 : List String := if base = "" then [] else [base]
  let flags : List String :=
    if r.source_census_firmpdemp.isNone && r.rdm_abs_firms.isNone then
      flags0 ++ ["missing_from_both"]
    else if r.source_census_firmpdemp.isNone then flags0 ++ ["missing_from_census"]
    else if r.rdm_abs_firms.isNone then flags0 ++ ["missing_from_rdm"]
    else flags0
  pyJoin ";" (flags.filter (fun f => decide (f ≠ "")))

end AbsRecon

namespace QcewRecon

/-- `qa/qcew_reconciliation.py::SUPPRESSED_VALUES`. -/
def SUPPRESSED_VALUES : List String :=
  ["", "D", "N", "S", "NA", "N/A", "(D)", "(N)", "(S)"]

/-- `qa/qcew_reconciliation.py::_parse_numeric`. -/
def _parse_numeric (value : Option String) : Option PyFloat × Option String :=
  match value with
  | none => (none, some "source_missing")
  | some v =>
    let text := pyStrip v
    if text ∈ SUPPRESSED_VALUES then (none, some "source_suppressed")
    else
      match pyFloatOfString text with
      | some f => (some f, none)
      | none => (none, some "source_non_numeric")

/-- The `lower = {c.lower(): c for c in df.columns}` dict of
`_normalize_columns`, looked up at `key` (a later column with the same
lower-case name overwrites an earlier one). -/
def lowerLookup (cols : List String) (key : String) : Option String :=
  cols.foldl (fun acc c => if pyLower c = key then some c else acc) none

/-- `_normalize_columns::pick`: the dict entry of the first option present. -/
def pick (cols : List String) : List String → Option String
  | [] => none
  | o :: os =>
    match lowerLookup cols o with
    | some c => some c
    | none => pick cols os

/-- The required canonical columns of `_normalize_columns` with their alias
lists, in the order of the `missing` dict (lines 107-125). -/
def requiredSpecs : List (String × List String) :=
  [("area_fips", ["area_fips", "state_cnty_fips_cd", "fips"]),
   ("industry_code", ["industry_code", "indstr_cd", "naics"]),
   ("year", ["year", "year_num"]),
   ("annual_avg_emplvl", ["annual_avg_emplvl", "annual_avg_emp", "qcew_ann_avg_emp_lvl_num"]),
   ("total_annual_wages", ["total_annual_wages", "qcew_ttl_ann_wage_usd_amt"]),
   ("annual_avg_wkly_wage", ["annual_avg_wkly_wage", "avg_weekly_wage", "qcew_avg_wkly_wage_usd_amt"]),
   ("agglvl_code", ["agglvl_code", "agg_lvl_cd", "aggregation_level"])]

/-- The optional columns of `_normalize_columns` (own_code, qtr). -/
def optionalSpecs : List (String × List String) :=
  [("own_code", ["own_code", "ownership_code", "own"]),
   ("qtr", ["qtr", "quarter"])]

/-- The `missing` list of `_normalize_columns`: required canonical names with
no alias present. -/
def missingRequired (cols : List String) : List String :=
  (requiredSpecs.filter (fun p => (pick cols p.2).isNone)).map (fun p => p.1)

/-- The `rename_map` of `_normalize_columns` as an association list
(picked column, canonical name). -/
def renamesOf (cols : List String) : List (String × String) :=
  (requiredSpecs ++ optionalSpecs).filterMap
    (fun p => (pick cols p.2).map (fun c => (c, p.1)))

/-- `df.rename(columns=rename_map)` applied to one column name. -/
def renameOf (cols : List String) (c : String) : String :=
  ((((renamesOf cols).find? (fun pr => decide (pr.1 = c))).map Prod.snd)).getD c

/-- `qa/qcew_reconciliation.py::_normalize_columns` on the list of column
names: `ValueError` (carrying the `missing` list) when a required column has
no alias, otherwise the renamed column list. -/
def _normalize_columns (cols : List String) : Except (List String) (List String) :=
  if missingRequired cols ≠ [] then Except.error (missingRequired cols)
  else Except.ok (cols.map (renameOf cols))

/-- One merged row of `reconcile_qcew` after `pd.to_numeric(errors="coerce")`;
`notes` is the source notes column (`none` = NaN, for rows missing from the
source side of the outer merge). -/
structure MergedRow where
  source_qcew_annual_avg_emplvl : Option ℚ
  source_qcew_total_annual_wages_usd : Option ℚ
  source_qcew_avg_weekly_wage_usd : Option ℚ
  rdm_qcew_emp : Option ℚ
  rdm_qcew_wages_usd : Option ℚ
  rdm_qcew_avg_weekly_wage_usd : Option ℚ
  notes : Option String
deriving DecidableEq

/-- Key normalization applied to every merged row of `reconcile_qcew`
(lines 298-300). -/
def reconcile_key_fields (s : String) : String × String × String :=
  let k := pyZfill s 5
  (k, strTake k 2, strDrop k 2)

/-- The avg-weekly-wage fallback (lines 312-317): keep the RDM value when
present, else wages/(52·employment) where employment is positive. -/
def rdm_avg_wage_resolved (r : MergedRow) : Option ℚ :=
  match r.rdm_qcew_avg_weekly_wage_usd with
  | some v => some v
  | none =>
    match r.rdm_qcew_emp, r.rdm_qcew_wages_usd with
    | some e, some w => if 0 < e then some (w / (e * 52)) else none
    | _, _ => none

def delta_emp (r : MergedRow) : Option ℚ :=
  optSub r.rdm_qcew_emp r.source_qcew_annual_avg_emplvl

def delta_wages_usd (r : MergedRow) : Option ℚ :=
  optSub r.rdm_qcew_wages_usd r.source_qcew_total_annual_wages_usd

def delta_avg_weekly_wage_usd (r : MergedRow) : Option ℚ :=
  optSub (rdm_avg_wage_resolved r) r.source_qcew_avg_weekly_wage_usd

def delta_emp_pct (r : MergedRow) : Option PyFloat :=
  QaUtils.safe_divide (toPy (delta_emp r)) (toPy r.source_qcew_annual_avg_emplvl)

def delta_wages_pct (r : MergedRow) : Option PyFloat :=
  QaUtils.safe_divide (toPy (delta_wages_usd r)) (toPy r.source_qcew_total_annual_wages_usd)

def delta_avg_weekly_wage_pct (r : MergedRow) : Option PyFloat :=
  QaUtils.safe_divide (toPy (delta_avg_weekly_wage_usd r)) (toPy r.source_qcew_avg_weekly_wage_usd)

/-- `reconcile_qcew::_pass_exact` (lines 335-338): tri-state. -/
def _pass_exact (delta left right : Option ℚ) : Option Bool :=
  if left.isNone || right.isNone then none
  else
    match delta with
    | some d => some (decide (d = 0))
    | none => some false

/-- `reconcile_qcew::_pass_tol` (lines 340-343): tri-state, absolute
deviation. -/
def _pass_tol (delta left right : Option ℚ) (tol : ℚ) : Option Bool :=
  if left.isNone || right.isNone then none
  else
    match delta with
    | some d => some (decide (|d| ≤ tol))
    | none => some false

def pass_emp (r : MergedRow) : Option Bool :=
  _pass_exact (delta_emp r) r.rdm_qcew_emp r.source_qcew_annual_avg_emplvl

def pass_wages (r : MergedRow) : Option Bool :=
  _pass_exact (delta_wages_usd r) r.rdm_qcew_wages_usd r.source_qcew_total_annual_wages_usd

def pass_avg_weekly_wage (allow_wage_tolerance : Bool) (r : MergedRow) : Option Bool :=
  if allow_wage_tolerance then
    _pass_tol (delta_avg_weekly_wage_usd r) (rdm_avg_wage_resolved r)
      r.source_qcew_avg_weekly_wage_usd 1
  else
    _pass_exact (delta_avg_weekly_wage_usd r) (rdm_avg_wage_resolved r)
      r.source_qcew_avg_weekly_wage_usd

/-- The `pass_all` classification of the final loop of `reconcile_qcew`
(lines 362-380): `none` models Python `None`. -/
def pass_all_of (r : MergedRow) : Option Bool :=
  if r.source_qcew_annual_avg_emplvl.isNone && r.rdm_qcew_emp.isNone then none
  else if r.source_qcew_annual_avg_emplvl.isNone then none
  else if r.rdm_qcew_emp.isNone then some false
  else if pass_emp r = some true ∧ pass_wages r = some true then some true
  else if pass_emp r = none ∨ pass_wages r = none then none
  else some false

/-- Python truthiness of the `notes` cell: the float NaN (a row missing from
the source side) is truthy; a string is truthy iff nonempty. -/
def pyTruthy : Option String → Bool
  | none => true
  | some s => decide (s ≠ "")

/-- Python `";".join(xs)` over a list that may contain the float NaN
(`none`): raises `TypeError` on any non-string element. -/
def pyJoinStrict (sep : String) (xs : List (Option String)) : Except String String :=
  if xs.any (fun x => x.isNone) then Except.error "TypeError"
  else Except.ok (pyJoin sep (xs.filterMap id))

/-- The `flags` list built for one row of the final loop of `reconcile_qcew`
(lines 363-372); elements are `none` when the Python value is the float NaN. -/
def row_flags (r : MergedRow) : List (Option String) :=
  let flags0 : List (Option String) := if pyTruthy r.notes then [r.notes] else []
  if r.source_qcew_annual_avg_emplvl.isNone && r.rdm_qcew_emp.isNone then
    flags0 ++ [some "missing_from_both"]
  else if r.source_qcew_annual_avg_emplvl.isNone then flags0 ++ [some "missing_from_source"]
  else if r.rdm_qcew_emp.isNone then flags0 ++ [some "missing_from_rdm"]
  else flags0

/-- One iteration of the final loop of `reconcile_qcew` (lines 362-381):
the `pass_all` value and the joined notes string, or the `TypeError` that
`";".join` raises when a NaN note survives the truthiness filter. -/
def row_pass_and_notes (r : MergedRow) : Except String (Option Bool × String) :=
  match pyJoinStrict ";" ((row_flags r).filter pyTruthy) with
  | Except.error e => Except.error e
  | Except.ok s => Except.ok (pass_all_of r, s)

/-- The final loop of `reconcile_qcew` over all merged rows; the first raising
row aborts the reconciliation. -/
def finalize_rows (rows : List MergedRow) : Except String (List (Option Bool × String)) :=
  rows.mapM row_pass_and_notes

end QcewRecon

namespace Integration

/-- One per-year ABS extract row
(`scripts/integration/econ_bnchmrk_abs_qcew_merge.py`). -/
structure AbsRow where
  year_num : ℤ
  state_cnty_fips_cd : String
  naics2_sector_cd : String
  abs_firm_num : Option ℚ
  abs_emp_num : Option ℚ
  abs_payroll_usd_amt : Option ℚ
  abs_rcpt_usd_amt : Option ℚ
deriving DecidableEq

/-- One per-year QCEW extract row. -/
structure QcewRow where
  year_num : ℤ
  state_cnty_fips_cd : String
  naics2_sector_cd : String
  qcew_ann_avg_emp_lvl_num : Option ℚ
  qcew_ttl_ann_wage_usd_amt : Option ℚ
deriving DecidableEq

/-- One row of `ref_state_cnty_uscb` (join key and population payload). -/
structure RefRow where
  state_cnty_fips_cd : String
  population_num : Option ℚ
deriving DecidableEq

/-- One row of the merged fact table. -/
structure FactRow where
  year_num : ℤ
  state_cnty_fips_cd : String
  naics2_sector_cd : String
  abs_firm_num : Option ℚ
  abs_emp_num : Option ℚ
  abs_payroll_usd_amt : Option ℚ
  abs_rcpt_usd_amt : Option ℚ
  qcew_ann_avg_emp_lvl_num : Option ℚ
  qcew_ttl_ann_wage_usd_amt : Option ℚ
  state_fips_cd : String
  abs_rcpt_per_emp_usd_amt : Option ℚ
  abs_wage_per_emp_usd_amt : Option ℚ
  abs_rcpt_per_firm_usd_amt : Option ℚ
  qcew_wage_per_emp_usd_amt : Option ℚ
  population_num : Option ℚ
deriving DecidableEq

def absKey (a : AbsRow) : ℤ × String × String :=
  (a.year_num, a.state_cnty_fips_cd, a.naics2_sector_cd)

def qcewKey (q : QcewRow) : ℤ × String × String :=
  (q.year_num, q.state_cnty_fips_cd, q.naics2_sector_cd)

/-- The merge key `(year_num, state_cnty_fips_cd, naics2_sector_cd)` of a
fact row — the subset the duplicate check of `assemble` uses. -/
def factKey (r : FactRow) : ℤ × String × String :=
  (r.year_num, r.state_cnty_fips_cd, r.naics2_sector_cd)

/-- `load_abs`: read rows and stamp `year_num` with the loop year. -/
def load_abs (year : ℤ) (rows : List AbsRow) : List AbsRow :=
  rows.map (fun r => { r with year_num := year })

/-- `load_qcew`: read rows and stamp `year_num` with the loop year. -/
def load_qcew (year : ℤ) (rows : List QcewRow) : List QcewRow :=
  rows.map (fun r => { r with year_num := year })

/-- One output row of the outer merge of `merge_year`: the metric columns of
whichever sides matched, NaN elsewhere; `state_fips_cd` is the first two
characters of the key (line 56).  The derived-ratio and population columns do
not exist yet (NaN). -/
def mkFact (year : ℤ) (fips naics : String) (a : Option AbsRow) (q : Option QcewRow) : FactRow :=
  { year_num := year
    state_cnty_fips_cd := fips
    naics2_sector_cd := naics
    abs_firm_num := match a with | some x => x.abs_firm_num | none => none
    abs_emp_num := match a with | some x => x.abs_emp_num | none => none
    abs_payroll_usd_amt := match a with | some x => x.abs_payroll_usd_amt | none => none
    abs_rcpt_usd_amt := match a with | some x => x.abs_rcpt_usd_amt | none => none
    qcew_ann_avg_emp_lvl_num := match q with | some x => x.qcew_ann_avg_emp_lvl_num | none => none
    qcew_ttl_ann_wage_usd_amt := match q with | some x => x.qcew_ttl_ann_wage_usd_amt | none => none
    state_fips_cd := strTake fips 2
    abs_rcpt_per_emp_usd_amt := none
    abs_wage_per_emp_usd_amt := none
    abs_rcpt_per_firm_usd_amt := none
    qcew_wage_per_emp_usd_amt := none
    population_num := none }

/-- `merge_year`: outer merge of the ABS and QCEW frames on
`(year_num, state_cnty_fips_cd, naics2_sector_cd)`: matched cross pairs, then
left-only rows, then right-only rows. -/
def merge_year (absRows : List AbsRow) (qcewRows : List QcewRow) : List FactRow :=
  (absRows.flatMap fun a =>
    match qcewRows.filter (fun q => decide (qcewKey q = absKey a)) with
    | [] => [mkFact a.year_num a.state_cnty_fips_cd a.naics2_sector_cd (some a) none]
    | ms => ms.map (fun q => mkFact a.year_num a.state_cnty_fips_cd a.naics2_sector_cd (some a) (some q)))
  ++ ((qcewRows.filter (fun q => absRows.all (fun a => decide (absKey a ≠ qcewKey q)))).map
      (fun q => mkFact q.year_num q.state_cnty_fips_cd q.naics2_sector_cd none (some q)))

/-- The numpy-style `safe_divide` at the top of the merge script: zero
denominators are replaced by NaN before dividing. -/
def np_safe_divide (num den : Option ℚ) : Option ℚ :=
  match num, den with
  | some a, some b => if b = 0 then none else some (a / b)
  | _, _ => none

/-- `derive_metrics` on one row: the four per-employee / per-firm ratios. -/
def derive_metrics (r : FactRow) : FactRow :=
  { r with
    abs_rcpt_per_emp_usd_amt := np_safe_divide r.abs_rcpt_usd_amt r.abs_emp_num
    abs_wage_per_emp_usd_amt := np_safe_divide r.abs_payroll_usd_amt r.abs_emp_num
    abs_rcpt_per_firm_usd_amt := np_safe_divide r.abs_rcpt_usd_amt r.abs_firm_num
    qcew_wage_per_emp_usd_amt := np_safe_divide r.qcew_ttl_ann_wage_usd_amt r.qcew_ann_avg_emp_lvl_num }

/-- One row through the left merge of `enrich_population`: the reference rows
matching the county key, or the row alone (null population) when none match. -/
def enrich_row (ref : List RefRow) (r : FactRow) : List FactRow :=
  match ref.filter (fun t => decide (t.state_cnty_fips_cd = r.state_cnty_fips_cd)) with
  | [] => [r]
  | ms => ms.map (fun t => { r with population_num := t.population_num })

/-- `enrich_population`: left merge with the reference on
`state_cnty_fips_cd`; a row with several reference matches is repeated once
per match. -/
def enrich_population (df : List FactRow) (ref : List RefRow) : List FactRow :=
  df.flatMap (enrich_row ref)

/-- The sort key of `sort_values(["year_num", "state_cnty_fips_cd",
"naics2_sector_cd"])` with strings compared by code points. -/
def sortKey (r : FactRow) : ℤ × List ℕ × List ℕ :=
  (r.year_num, strKey r.state_cnty_fips_cd, strKey r.naics2_sector_cd)

/-- Lexicographic order on the sort key. -/
def keyLE (a b : ℤ × List ℕ × List ℕ) : Prop :=
  a.1 < b.1 ∨ (a.1 = b.1 ∧ (a.2.1 < b.2.1 ∨ (a.2.1 = b.2.1 ∧ a.2.2 ≤ b.2.2)))

instance : DecidableRel keyLE :=
  fun a b => by unfold keyLE; infer_instance

/-- Row order used by the final sort of `assemble`. -/
def rowLE (a b : FactRow) : Prop :=
  keyLE (sortKey a) (sortKey b)

instance : DecidableRel rowLE :=
  fun a b => inferInstanceAs (Decidable (keyLE (sortKey a) (sortKey b)))

/-- `combined.duplicated(subset=keys)`: mark a row whose key has occurred
before it. -/
def dupFlags (seen : List (ℤ × String × String)) : List (ℤ × String × String) → List Bool
  | [] => []
  | k :: ks => (decide (k ∈ seen)) :: dupFlags (k :: seen) ks

/-- `combined.duplicated(subset=keys).sum()`. -/
def dupCount (ks : List (ℤ × String × String)) : ℕ :=
  (dupFlags [] ks).count true

/-- The `pd.concat(frames)` value inside `assemble` (line 111): the per-year
outer merges, concatenated. -/
def combined_frames (yearData : List (ℤ × List AbsRow × List QcewRow)) : List FactRow :=
  (yearData.map (fun yd => merge_year (load_abs yd.1 yd.2.1) (load_qcew yd.1 yd.2.2))).flatten

/-- `assemble` (lines 99-123): concatenate the per-year merges, derive
metrics, enrich with population, sort by the key, and fail with the duplicate
count (`AssertionError`) when any key is duplicated. -/
def assemble (yearData : List (ℤ × List AbsRow × List QcewRow)) (ref : List RefRow) :
    Except ℕ (List FactRow) :=
  let combined := combined_frames yearData
  let derived := combined.map derive_metrics
  let enriched := enrich_population derived ref
  let sortedRows := List.insertionSort rowLE enriched
  let dupes := dupCount (sortedRows.map factKey)
  if dupes = 0 then Except.ok sortedRows else Except.error dupes

end Integration

/-- Spec-side shape of a `delta_*_pct` cell: null, or a quotient with nonzero
denominator. -/
def quotient_or_null (x : Option PyFloat) : Prop :=
  x = none ∨ ∃ a b : ℚ, b ≠ 0 ∧ x = some (PyFloat.finite (a / b))

/-- Spec-side view of the source notes cell after the NaN-to-empty-string
conversion of `reconcile_abs`. -/
def baseNotes : Option String → String
  | none => ""
  | some s => s

/-- Spec-side `";"`-append of one flag to a (possibly empty) notes string. -/
def appendFlag (base flag : String) : String :=
  if base = "" then flag else base ++ ";" ++ flag

/-- A merged ABS row whose RDM payroll (3000) deviates from the Census
payroll (1000) by $2000 — 200 % relative deviation. -/
def c1row : AbsRecon.MergedRow :=
  { source_census_firmpdemp := some 10
    source_census_emp := some 100
    source_census_payann_usd := some 1000
    source_census_rcppdemp_usd := some 0
    rdm_abs_firms := some 10
    rdm_abs_emp := some 100
    rdm_abs_payroll_usd_amt := some 3000
    rdm_abs_rcpt_usd_amt := some 0
    notes := some "" }

/-- A merged QCEW row present only on the RDM side: the source metric cells
and the source `notes` cell are NaN. -/
def missingSourceRow : QcewRecon.MergedRow :=
  { source_qcew_annual_avg_emplvl := none
    source_qcew_total_annual_wages_usd := none
    source_qcew_avg_weekly_wage_usd := none
    rdm_qcew_emp := some 100
    rdm_qcew_wages_usd := some 5200000
    rdm_qcew_avg_weekly_wage_usd := some 1000
    notes := none }

/-- A one-year ABS extract row for the integration-merge examples. -/
def w6abs : Integration.AbsRow :=
  { year_num := 0
    state_cnty_fips_cd := "06075"
    naics2_sector_cd := "42"
    abs_firm_num := none
    abs_emp_num := none
    abs_payroll_usd_amt := none
    abs_rcpt_usd_amt := none }

/-- A one-year QCEW extract row for the integration-merge examples. -/
def w6qcew : Integration.QcewRow :=
  { year_num := 0
    state_cnty_fips_cd := "06085"
    naics2_sector_cd := "62"
    qcew_ann_avg_emp_lvl_num := none
    qcew_ttl_ann_wage_usd_amt := none }

/-- One year of well-keyed input for `assemble`. -/
def w6data : List (ℤ × List Integration.AbsRow × List Integration.QcewRow) :=
  [(2022, [w6abs], [w6qcew])]

/-- One year of input whose ABS extract repeats a key. -/
def w6dup : List (ℤ × List Integration.AbsRow × List Integration.QcewRow) :=
  [(2022, [w6abs, w6abs], [])]

/-- The fact row `assemble` produces from the ABS-only side of `w6data`. -/
def w6outA : Integration.FactRow :=
  Integration.derive_metrics
    (Integration.mkFact 2022 "06075" "42" (some { w6abs with year_num := 2022 }) none)

/-- The fact row `assemble` produces from the QCEW-only side of `w6data`. -/
def w6outB : Integration.FactRow :=
  Integration.derive_metrics
    (Integration.mkFact 2022 "06085" "62" none (some { w6qcew with year_num := 2022 }))

end RdmQa

namespace RdmQa

/-- A `delta_*_pct` cell of `reconcile_abs` is null or a quotient with nonzero
denominator (helper shared by the column-shape arguments). -/
theorem safe_divide_toPy_shape (x y : Option ℚ) :
    quotient_or_null (QaUtils.safe_divide (toPy x) (toPy y)) := by
  rcases x with _ | a <;> rcases y with _ | b
  · left; rfl
  · by_cases hb : b = 0 <;> left <;> simp [toPy, QaUtils.safe_divide, hb, pyIsNan]
  · left; rfl
  · by_cases hb : b = 0
    · left; simp [toPy, QaUtils.safe_divide, hb, pyIsNan]
    · right
      refine ⟨a, b, hb, ?_⟩
      simp [toPy, QaUtils.safe_divide, hb, pyIsNan, pyDiv]

/-- C10: `qa/utils.py::safe_divide` is total and never raises: it returns
`None` exactly when the numerator is `None` or NaN or the denominator is
`None`, 0, or NaN, and the quotient otherwise; hence every ABS `delta_*_pct`
cell is either a quotient with nonzero denominator or null, so the
division-by-zero branch is unreachable. -/
theorem c10_safe_divide_total :
    (∀ n d : Option PyFloat, QaUtils.safe_divide n d = none ↔
      (n = none ∨ n = some PyFloat.nan ∨ d = none ∨ d = some (PyFloat.finite 0) ∨
        d = some PyFloat.nan)) ∧
    (∀ n d v, QaUtils.safe_divide n d = some v →
      ∃ a b, n = some a ∧ d = some b ∧ pyIsNan a = false ∧ pyIsNan b = false ∧
        b ≠ PyFloat.finite 0 ∧ v = pyDiv a b) ∧
    (∀ r : AbsRecon.MergedRow,
      quotient_or_null (AbsRecon.delta_firms_pct r) ∧
      quotient_or_null (AbsRecon.delta_emp_pct r) ∧
      quotient_or_null (AbsRecon.delta_payroll_pct r) ∧
      quotient_or_null (AbsRecon.delta_receipts_pct r)) := by
  refine ⟨?_, ?_, ?_⟩
  · intro n d
    rcases n with _ | a
    · simp [QaUtils.safe_divide]
    rcases d with _ | b
    · simp [QaUtils.safe_divide]
    rcases a with qa | _ | _ | _ <;> rcases b with qb | _ | _ | _ <;>
      simp [QaUtils.safe_divide, pyIsNan]
  · intro n d v h
    rcases n with _ | a
    · simp [QaUtils.safe_divide] at h
    rcases d with _ | b
    · simp [QaUtils.safe_divide] at h
    simp only [QaUtils.safe_divide] at h
    by_cases h1 : b = PyFloat.finite 0
    · simp [h1] at h
    by_cases h2 : pyIsNan b = true
    · simp [h1, h2] at h
    by_cases h3 : pyIsNan a = true
    · simp [h1, h2, h3] at h
    · rw [if_neg h1, if_neg h2, if_neg h3] at h
      exact ⟨a, b, rfl, rfl, by simpa using h3, by simpa using h2, h1,
        (Option.some.inj h).symm⟩
  · intro r
    exact ⟨safe_divide_toPy_shape _ _, safe_divide_toPy_shape _ _,
      safe_divide_toPy_shape _ _, safe_divide_toPy_shape _ _⟩

/-- C10 witness: `safe_divide` applied at a concrete numerator and
denominator. -/
theorem c10_safe_divide_total_witness :
    ∃ a b, (some (PyFloat.finite 3) : Option PyFloat) = some a ∧
      (some PyFloat.posInf : Option PyFloat) = some b ∧ pyIsNan a = false ∧
      pyIsNan b = false ∧ b ≠ PyFloat.finite 0 ∧ PyFloat.finite 0 = pyDiv a b :=
  c10_safe_divide_total.2.1 (some (PyFloat.finite 3)) (some PyFloat.posInf)
    (PyFloat.finite 0) rfl

/-- C2: `_parse_numeric` (identical in the ABS and QCEW reconcilers) returns
`(None, "source_missing")` on `None`, `(None, "source_suppressed")` when the
stripped string is a suppression marker, `(None, "source_non_numeric")` when
it is any other string that does not parse as a float, and the parsed float
with no note otherwise — and, being total, it never raises. -/
theorem c2_parse_numeric_cases (v : Option String) :
    (v = none → AbsRecon._parse_numeric v = (none, some "source_missing")) ∧
    (∀ s, v = some s → pyStrip s ∈ AbsRecon.SUPPRESSED_VALUES →
      AbsRecon._parse_numeric v = (none, some "source_suppressed")) ∧
    (∀ s, v = some s → pyStrip s ∉ AbsRecon.SUPPRESSED_VALUES →
      pyFloatOfString (pyStrip s) = none →
      AbsRecon._parse_numeric v = (none, some "source_non_numeric")) ∧
    (∀ s f, v = some s → pyStrip s ∉ AbsRecon.SUPPRESSED_VALUES →
      pyFloatOfString (pyStrip s) = some f →
      AbsRecon._parse_numeric v = (some f, none)) ∧
    QcewRecon._parse_numeric v = AbsRecon._parse_numeric v := by
  refine ⟨?_, ?_, ?_, ?_, rfl⟩
  · intro h; subst h; rfl
  · intro s hv h; subst hv
    simp [AbsRecon._parse_numeric, h]
  · intro s hv h hf; subst hv
    simp [AbsRecon._parse_numeric, h, hf]
  · intro s f hv h hf; subst hv
    simp [AbsRecon._parse_numeric, h, hf]

/-- C2 witness: the four cases at concrete inputs (`None`, a padded
suppression marker, a non-numeric string, and a string `float` accepts). -/
theorem c2_parse_numeric_cases_witness :
    AbsRecon._parse_numeric none = (none, some "source_missing") ∧
    AbsRecon._parse_numeric (some " (D) ") = (none, some "source_suppressed") ∧
    AbsRecon._parse_numeric (some "abc") = (none, some "source_non_numeric") ∧
    AbsRecon._parse_numeric (some "nan") = (some PyFloat.nan, none) :=
  ⟨(c2_parse_numeric_cases none).1 rfl,
   (c2_parse_numeric_cases _).2.1 " (D) " rfl (by decide),
   (c2_parse_numeric_cases _).2.2.1 "abc" rfl (by decide) (by decide),
   (c2_parse_numeric_cases _).2.2.2.1 "nan" PyFloat.nan rfl (by decide) (by decide)⟩

/-- C5 (code bug): for a merged row missing from the QCEW source side the
`pass_all` classification is indeed `None` (excluded), but the final loop of
`reconcile_qcew` never returns it: the row's source `notes` cell is the float
NaN, which is truthy, survives the `if flag` filter, and makes `";".join`
raise `TypeError`, aborting the reconciliation. -/
theorem c5_qcew_missing_source_crash :
    QcewRecon.pass_all_of missingSourceRow = none ∧
    QcewRecon.row_flags missingSourceRow = [none, some "missing_from_source"] ∧
    QcewRecon.finalize_rows [missingSourceRow] = Except.error "TypeError" :=
  ⟨rfl, rfl, rfl⟩

/-- Joining the truthy flags when one nonempty flag was appended to the base
notes. -/
theorem pyJoin_flags (base flag : String) (hflag : flag ≠ "") :
    pyJoin ";" (((if base = "" then ([] : List String) else [base]) ++ [flag]).filter
      (fun f => decide (f ≠ ""))) = appendFlag base flag := by
  by_cases hb : base = "" <;> simp [hb, pyJoin, appendFlag, hflag]

/-- Joining the truthy flags when no flag was appended. -/
theorem pyJoin_noflag (base : String) :
    pyJoin ";" ((if base = "" then ([] : List String) else [base]).filter
      (fun f => decide (f ≠ ""))) = base := by
  by_cases hb : base = "" <;> simp [hb, pyJoin]

/-- C3: `reconcile_abs` appends to the notes exactly one of
`missing_from_both` / `missing_from_census` / `missing_from_rdm` according to
which of the two firms cells are absent, appends nothing when both are
present, preserves the pre-existing source notes, and joins with ";". -/
theorem c3_abs_notes_flags (r : AbsRecon.MergedRow) :
    (r.source_census_firmpdemp = none → r.rdm_abs_firms = none →
      AbsRecon.row_notes r = appendFlag (baseNotes r.notes) "missing_from_both") ∧
    (r.source_census_firmpdemp = none → r.rdm_abs_firms ≠ none →
      AbsRecon.row_notes r = appendFlag (baseNotes r.notes) "missing_from_census") ∧
    (r.source_census_firmpdemp ≠ none → r.rdm_abs_firms = none →
      AbsRecon.row_notes r = appendFlag (baseNotes r.notes) "missing_from_rdm") ∧
    (r.source_census_firmpdemp ≠ none → r.rdm_abs_firms ≠ none →
      AbsRecon.row_notes r = baseNotes r.notes) := by
  refine ⟨?_, ?_, ?_, ?_⟩ <;> intro h1 h2
  · rcases hn : r.notes with _ | s <;>
      simp only [AbsRecon.row_notes, h1, h2, hn, Option.isNone_none,
        Bool.and_self, if_true, baseNotes] <;>
      first
        | decide
        | exact pyJoin_flags s "missing_from_both" (by decide)
  · obtain ⟨b, hb⟩ := Option.ne_none_iff_exists'.mp h2
    rcases hn : r.notes with _ | s <;>
      simp only [AbsRecon.row_notes, h1, hb, hn, Option.isNone_none,
        Option.isNone_some, Bool.and_false, Bool.false_eq_true, if_false,
        if_true, baseNotes] <;>
      first
        | decide
        | exact pyJoin_flags s "missing_from_census" (by decide)
  · obtain ⟨a, ha⟩ := Option.ne_none_iff_exists'.mp h1
    rcases hn : r.notes with _ | s <;>
      simp only [AbsRecon.row_notes, ha, h2, hn, Option.isNone_none,
        Option.isNone_some, Bool.false_and, Bool.false_eq_true, if_false,
        if_true, baseNotes] <;>
      first
        | decide
        | exact pyJoin_flags s "missing_from_rdm" (by decide)
  · obtain ⟨a, ha⟩ := Option.ne_none_iff_exists'.mp h1
    obtain ⟨b, hb⟩ := Option.ne_none_iff_exists'.mp h2
    rcases hn : r.notes with _ | s <;>
      simp only [AbsRecon.row_notes, ha, hb, hn, Option.isNone_some,
        Bool.false_and, Bool.and_false, Bool.false_eq_true, if_false,
        baseNotes] <;>
      first
        | decide
        | exact pyJoin_noflag s

/-- C3 witness: a row missing from the Census side with pre-existing notes. -/
theorem c3_abs_notes_flags_witness :
    AbsRecon.row_notes
      { source_census_firmpdemp := none
        source_census_emp := none
        source_census_payann_usd := none
        source_census_rcppdemp_usd := none
        rdm_abs_firms := some 7
        rdm_abs_emp := some 7
        rdm_abs_payroll_usd_amt := none
        rdm_abs_rcpt_usd_amt := none
        notes := some "source_suppressed" } =
      appendFlag "source_suppressed" "missing_from_census" :=
  (c3_abs_notes_flags _).2.1 rfl (by simp)

/-- C4: in `reconcile_abs`, `pass_all` is the conjunction of the four
per-metric flags, and each per-metric flag is `False` whenever either side of
its comparison is missing. -/
theorem c4_abs_pass_all (r : AbsRecon.MergedRow) :
    (AbsRecon.pass_all r = true ↔
      AbsRecon.pass_firms r = true ∧ AbsRecon.pass_emp r = true ∧
      AbsRecon.pass_payroll r = true ∧ AbsRecon.pass_receipts r = true) ∧
    ((r.rdm_abs_firms = none ∨ r.source_census_firmpdemp = none) →
      AbsRecon.pass_firms r = false) ∧
    ((r.rdm_abs_emp = none ∨ r.source_census_emp = none) →
      AbsRecon.pass_emp r = false) ∧
    ((r.rdm_abs_payroll_usd_amt = none ∨ r.source_census_payann_usd = none) →
      AbsRecon.pass_payroll r = false) ∧
    ((r.rdm_abs_rcpt_usd_amt = none ∨ r.source_census_rcppdemp_usd = none) →
      AbsRecon.pass_receipts r = false) := by
  refine ⟨by simp [AbsRecon.pass_all, and_assoc], ?_, ?_, ?_, ?_⟩ <;>
    rintro (h | h) <;>
    simp [AbsRecon.pass_firms, AbsRecon.pass_emp, AbsRecon.pass_payroll,
      AbsRecon.pass_receipts, AbsRecon._pass_exact, AbsRecon._pass_tol, h]

/-- C4 witness: a row missing from the RDM side fails each per-metric flag,
hence `pass_all`. -/
theorem c4_abs_pass_all_witness :
    AbsRecon.pass_firms
      { source_census_firmpdemp := some 10
        source_census_emp := some 100
        source_census_payann_usd := some 200000
        source_census_rcppdemp_usd := some 300000
        rdm_abs_firms := none
        rdm_abs_emp := none
        rdm_abs_payroll_usd_amt := none
        rdm_abs_rcpt_usd_amt := none
        notes := some "" } = false :=
  (c4_abs_pass_all _).2.1 (Or.inl rfl)

end RdmQa

namespace RdmQa

/-- Characterization of the ABS absolute-tolerance check on a delta column
built by cell subtraction. -/
theorem abs_pass_tol_iff (x y : Option ℚ) (tol : ℚ) :
    AbsRecon._pass_tol (optSub x y) x y tol = true ↔
      ∃ a b : ℚ, x = some a ∧ y = some b ∧ |a - b| ≤ tol := by
  rcases x with _ | a <;> rcases y with _ | b <;>
    simp [AbsRecon._pass_tol, optSub]

/-- Characterization of the QCEW tri-state absolute-tolerance check. -/
theorem qcew_pass_tol_iff (x y : Option ℚ) (tol : ℚ) :
    QcewRecon._pass_tol (optSub x y) x y tol = some true ↔
      ∃ a b : ℚ, x = some a ∧ y = some b ∧ |a - b| ≤ tol := by
  rcases x with _ | a <;> rcases y with _ | b <;>
    simp [QcewRecon._pass_tol, optSub]

/-- C1 counterexample: a merged row whose RDM payroll is 3000 against a Census
payroll of 1000.  Its relative deviation (the `delta_payroll_pct` cell) is 2,
well inside any 1000 bound, yet `pass_payroll` is `False`, because the code's
tolerance is the absolute dollar deviation (2000 > 1000), not a percentage. -/
theorem c1_counterexample :
    ¬ (AbsRecon.pass_payroll c1row = true ↔
        ∃ p : ℚ, AbsRecon.delta_payroll_pct c1row = some (PyFloat.finite p) ∧
          |p| ≤ 1000) := by
  have hdiv : QaUtils.safe_divide (some (PyFloat.finite (3000 - 1000)))
      (some (PyFloat.finite 1000)) = some (PyFloat.finite ((3000 - 1000) / 1000)) := by
    have h0 : (1000 : ℚ) ≠ 0 := by norm_num
    simp [QaUtils.safe_divide, pyIsNan, pyDiv, h0]
  have hpct : AbsRecon.delta_payroll_pct c1row = some (PyFloat.finite 2) := by
    rw [show AbsRecon.delta_payroll_pct c1row =
        QaUtils.safe_divide (some (PyFloat.finite (3000 - 1000)))
          (some (PyFloat.finite 1000)) from rfl, hdiv]
    norm_num
  have hpass : AbsRecon.pass_payroll c1row ≠ true := by
    intro htrue
    rw [show AbsRecon.pass_payroll c1row =
        AbsRecon._pass_tol (optSub (some 3000) (some 1000)) (some 3000)
          (some 1000) 1000 from rfl, abs_pass_tol_iff] at htrue
    obtain ⟨a, b, ha, hb, hab⟩ := htrue
    obtain rfl : a = 3000 := (Option.some.inj ha).symm
    obtain rfl : b = 1000 := (Option.some.inj hb).symm
    norm_num at hab
  intro h
  exact hpass (h.mpr ⟨2, hpct, by norm_num⟩)

/-- C1 (amended): the tolerance-matched pass flags compare absolute dollar
deviations: `pass_payroll`/`pass_receipts` hold iff both cells are present and
the absolute deviation is at most $1000, and with wage tolerance enabled
`pass_avg_weekly_wage` is `True` iff both avg-weekly-wage cells are present
and the absolute deviation is at most $1. -/
theorem c1_amended_absolute_tolerance (r : AbsRecon.MergedRow) (q : QcewRecon.MergedRow) :
    (AbsRecon.pass_payroll r = true ↔
      ∃ a b : ℚ, r.rdm_abs_payroll_usd_amt = some a ∧
        r.source_census_payann_usd = some b ∧ |a - b| ≤ 1000) ∧
    (AbsRecon.pass_receipts r = true ↔
      ∃ a b : ℚ, r.rdm_abs_rcpt_usd_amt = some a ∧
        r.source_census_rcppdemp_usd = some b ∧ |a - b| ≤ 1000) ∧
    (QcewRecon.pass_avg_weekly_wage true q = some true ↔
      ∃ a b : ℚ, QcewRecon.rdm_avg_wage_resolved q = some a ∧
        q.source_qcew_avg_weekly_wage_usd = some b ∧ |a - b| ≤ 1) :=
  ⟨abs_pass_tol_iff _ _ _, abs_pass_tol_iff _ _ _, by
    simpa [QcewRecon.pass_avg_weekly_wage, QcewRecon.delta_avg_weekly_wage_usd] using
      qcew_pass_tol_iff (QcewRecon.rdm_avg_wage_resolved q)
        q.source_qcew_avg_weekly_wage_usd 1⟩

/-- Length of a zero-filled string: `zfill` pads up to the width but never
truncates. -/
theorem pyZfill_length (s : String) (w : ℕ) : (pyZfill s w).length = max w s.length := by
  by_cases h : w ≤ s.length
  · simp [pyZfill, h, Nat.max_eq_right h]
  · have hlen : s.length = s.data.length := rfl
    unfold pyZfill
    rw [if_neg h]
    split
    · next rest heq =>
      have : s.data.length = rest.length + 1 := by rw [heq]; simp
      simp only [String.length, List.length_cons, List.length_append,
        List.length_replicate]
      omega
    · next rest heq =>
      have : s.data.length = rest.length + 1 := by rw [heq]; simp
      simp only [String.length, List.length_cons, List.length_append,
        List.length_replicate]
      omega
    · simp only [String.length, List.length_append, List.length_replicate]
      omega

/-- Splitting a string into its first `n` code points and the rest. -/
theorem strTake_append_strDrop (s : String) (n : ℕ) :
    strTake s n ++ strDrop s n = s := by
  show String.mk (((s.data.take n) ++ (s.data.drop n) : List Char)) = s
  rw [List.take_append_drop]

/-- Length of the `s[:n]` slice. -/
theorem strTake_length (s : String) (n : ℕ) :
    (strTake s n).length = min n s.length := by
  show (s.data.take n).length = min n s.data.length
  exact List.length_take n s.data

/-- Length of the `s[n:]` slice. -/
theorem strDrop_length (s : String) (n : ℕ) :
    (strDrop s n).length = s.length - n := by
  show (s.data.drop n).length = s.data.length - n
  exact List.length_drop n s.data

/-- C8 counterexample: a seven-character county value passes through
`zfill(5)` unchanged, so the key entering the ABS and QCEW reconciliation
comparisons has length 7, not exactly 5 as claimed (and its `county_fips`
remainder has 5 characters). -/
theorem c8_counterexample :
    (AbsRecon.reconcile_key_fields "1234567").1 = "1234567" ∧
    (AbsRecon.reconcile_key_fields "1234567").1.length ≠ 5 ∧
    (QcewRecon.reconcile_key_fields "1234567").1.length = 7 ∧
    AbsRecon.rdm_csv_naics "315" = "315" := by
  refine ⟨rfl, by decide, by decide, rfl⟩

/-- C8 (amended): reconciliation county keys are zero-filled to a minimum
width of 5 — exactly 5 whenever the input has at most 5 characters, longer
inputs passing through unchanged in length — `state_fips` is the first two
characters and `county_fips` the remainder of the key, the QCEW reconciler
and the RDM CSV reader normalize identically, and NAICS2 codes are
zero-filled to a minimum width of 2 (exactly 2 for inputs of at most 2
characters). -/
theorem c8_amended_zfill_min_width (s n : String) :
    (5 ≤ (AbsRecon.reconcile_key_fields s).1.length) ∧
    (s.length ≤ 5 → (AbsRecon.reconcile_key_fields s).1.length = 5) ∧
    ((AbsRecon.reconcile_key_fields s).2.1 = strTake (pyZfill s 5) 2 ∧
      (AbsRecon.reconcile_key_fields s).2.2 = strDrop (pyZfill s 5) 2) ∧
    ((AbsRecon.reconcile_key_fields s).2.1 ++ (AbsRecon.reconcile_key_fields s).2.2 =
      (AbsRecon.reconcile_key_fields s).1) ∧
    ((AbsRecon.reconcile_key_fields s).2.1.length = 2 ∧
      (s.length ≤ 5 → (AbsRecon.reconcile_key_fields s).2.2.length = 3)) ∧
    QcewRecon.reconcile_key_fields s = AbsRecon.reconcile_key_fields s ∧
    AbsRecon.rdm_csv_fips s = (AbsRecon.reconcile_key_fields s).1 ∧
    AbsRecon.fetch_census_county_key s = AbsRecon.reconcile_key_fields s ∧
    (2 ≤ (AbsRecon.rdm_csv_naics n).length ∧
      (n.length ≤ 2 → (AbsRecon.rdm_csv_naics n).length = 2)) := by
  have hlen := pyZfill_length s 5
  have hnlen := pyZfill_length n 2
  refine ⟨?_, ?_, ⟨rfl, rfl⟩, ?_, ⟨?_, ?_⟩, rfl, rfl, rfl, ⟨?_, ?_⟩⟩
  · simp only [AbsRecon.reconcile_key_fields, hlen]; omega
  · intro hs; simp only [AbsRecon.reconcile_key_fields, hlen]; omega
  · exact strTake_append_strDrop _ _
  · simp only [AbsRecon.reconcile_key_fields, strTake_length, hlen]; omega
  · intro hs
    simp only [AbsRecon.reconcile_key_fields, strDrop_length, hlen]; omega
  · simp only [AbsRecon.rdm_csv_naics, hnlen]; omega
  · intro hn; simp only [AbsRecon.rdm_csv_naics, hnlen]; omega

/-- C8 amended witness: the normalization at a concrete short county and
NAICS2 code. -/
theorem c8_amended_zfill_min_width_witness :
    (("675" : String).length ≤ 5 ∧
      (AbsRecon.reconcile_key_fields "675").1.length = 5) ∧
    (("6" : String).length ≤ 2 ∧ (AbsRecon.rdm_csv_naics "6").length = 2) :=
  ⟨⟨by decide, (c8_amended_zfill_min_width "675" "6").2.1 (by decide)⟩,
   ⟨by decide, (c8_amended_zfill_min_width "675" "6").2.2.2.2.2.2.2.2.2 (by decide)⟩⟩

end RdmQa

namespace RdmQa

/-- A `_parse_numeric` result carrying a note carries no value. -/
theorem parse_numeric_val_none_of_note (v : Option String) :
    (AbsRecon._parse_numeric v).2 ≠ none → (AbsRecon._parse_numeric v).1 = none := by
  rcases v with _ | s
  · intro _; rfl
  · simp only [AbsRecon._parse_numeric]
    by_cases h : pyStrip s ∈ AbsRecon.SUPPRESSED_VALUES
    · simp [h]
    · rcases hf : pyFloatOfString (pyStrip s) with _ | f <;> simp [h, hf]

/-- C9: both Census fetchers scale a parsed PAYANN / RCPPDEMP value by exactly
1000 (thousands of dollars to USD), and report the scaled field as `None`
when the source value is missing or suppressed. -/
theorem c9_census_scaling (rec : AbsRecon.CensusRecord) :
    (∀ q : ℚ, (AbsRecon._parse_numeric rec.PAYANN).1 = some (PyFloat.finite q) →
      (AbsRecon.census_fields rec).source_census_payann_usd =
          some (PyFloat.finite (1000 * q)) ∧
        (AbsRecon.census_state_fields rec).source_census_payann_usd =
          some (PyFloat.finite (1000 * q))) ∧
    (∀ q : ℚ, (AbsRecon._parse_numeric rec.RCPPDEMP).1 = some (PyFloat.finite q) →
      (AbsRecon.census_fields rec).source_census_rcppdemp_usd =
          some (PyFloat.finite (1000 * q)) ∧
        (AbsRecon.census_state_fields rec).source_census_rcppdemp_usd =
          some (PyFloat.finite (1000 * q))) ∧
    ((AbsRecon._parse_numeric rec.PAYANN).2 = some "source_missing" ∨
        (AbsRecon._parse_numeric rec.PAYANN).2 = some "source_suppressed" →
      (AbsRecon.census_fields rec).source_census_payann_usd = none ∧
        (AbsRecon.census_state_fields rec).source_census_payann_usd = none) ∧
    ((AbsRecon._parse_numeric rec.RCPPDEMP).2 = some "source_missing" ∨
        (AbsRecon._parse_numeric rec.RCPPDEMP).2 = some "source_suppressed" →
      (AbsRecon.census_fields rec).source_census_rcppdemp_usd = none ∧
        (AbsRecon.census_state_fields rec).source_census_rcppdemp_usd = none) := by
  have hpay : (AbsRecon.census_fields rec).source_census_payann_usd =
      AbsRecon.scale1000 (AbsRecon._parse_numeric rec.PAYANN).1 := rfl
  have hpayS : (AbsRecon.census_state_fields rec).source_census_payann_usd =
      AbsRecon.scale1000 (AbsRecon._parse_numeric rec.PAYANN).1 := rfl
  have hrc : (AbsRecon.census_fields rec).source_census_rcppdemp_usd =
      AbsRecon.scale1000 (AbsRecon._parse_numeric rec.RCPPDEMP).1 := rfl
  have hrcS : (AbsRecon.census_state_fields rec).source_census_rcppdemp_usd =
      AbsRecon.scale1000 (AbsRecon._parse_numeric rec.RCPPDEMP).1 := rfl
  refine ⟨?_, ?_, ?_, ?_⟩
  · intro q hq
    rw [hpay, hpayS, hq]
    constructor <;> · show some (PyFloat.finite (q * 1000)) = _; rw [mul_comm]
  · intro q hq
    rw [hrc, hrcS, hq]
    constructor <;> · show some (PyFloat.finite (q * 1000)) = _; rw [mul_comm]
  · intro hcase
    have hv : (AbsRecon._parse_numeric rec.PAYANN).1 = none :=
      parse_numeric_val_none_of_note _ (by rcases hcase with h | h <;> simp [h])
    rw [hpay, hpayS, hv]
    exact ⟨rfl, rfl⟩
  · intro hcase
    have hv : (AbsRecon._parse_numeric rec.RCPPDEMP).1 = none :=
      parse_numeric_val_none_of_note _ (by rcases hcase with h | h <;> simp [h])
    rw [hrc, hrcS, hv]
    exact ⟨rfl, rfl⟩

/-- C9 witness: a record with PAYANN = "200" (scaled to 200000 thousandths
per the theorem's `1000 * q` form) and a suppressed RCPPDEMP. -/
theorem c9_census_scaling_witness :
    ((AbsRecon.census_fields
        { notes := none, FIRMPDEMP := some "10", EMP := some "100",
          PAYANN := some "200", RCPPDEMP := some "D" }).source_census_payann_usd =
      some (PyFloat.finite (1000 * 200)) ∧
     (AbsRecon.census_state_fields
        { notes := none, FIRMPDEMP := some "10", EMP := some "100",
          PAYANN := some "200", RCPPDEMP := some "D" }).source_census_payann_usd =
      some (PyFloat.finite (1000 * 200))) ∧
    ((AbsRecon.census_fields
        { notes := none, FIRMPDEMP := some "10", EMP := some "100",
          PAYANN := some "200", RCPPDEMP := some "D" }).source_census_rcppdemp_usd =
      none ∧
     (AbsRecon.census_state_fields
        { notes := none, FIRMPDEMP := some "10", EMP := some "100",
          PAYANN := some "200", RCPPDEMP := some "D" }).source_census_rcppdemp_usd =
      none) := by
  have h200 : (AbsRecon._parse_numeric (some "200")).1 = some (PyFloat.finite 200) := by
    have h : (AbsRecon._parse_numeric (some "200")).1 =
        some (PyFloat.finite ((digitsToNat ['2','0','0'] : ℚ) *
          (10 : ℚ) ^ ((0 : ℤ) - ((0 : ℕ) : ℤ)))) := rfl
    rw [h, show digitsToNat ['2','0','0'] = 200 from rfl]
    norm_num
  exact ⟨(c9_census_scaling _).1 200 h200, (c9_census_scaling _).2.2.2 (Or.inr rfl)⟩

end RdmQa

namespace RdmQa

/-- Folding the column dict: a successful lookup returns a column whose
lower-case form is the key. -/
theorem lowerLookup_fold (cols : List String) (key : String) (acc : Option String)
    (c : String) :
    cols.foldl (fun a x => if pyLower x = key then some x else a) acc = some c →
      (c ∈ cols ∧ pyLower c = key) ∨ acc = some c := by
  induction cols generalizing acc with
  | nil => intro h; exact Or.inr h
  | cons d ds ih =>
    intro h
    simp only [List.foldl_cons] at h
    rcases ih _ h with ⟨hm, hl⟩ | hacc
    · exact Or.inl ⟨List.mem_cons_of_mem _ hm, hl⟩
    · by_cases hd : pyLower d = key
      · rw [if_pos hd] at hacc
        obtain rfl : d = c := Option.some.inj hacc
        exact Or.inl ⟨List.mem_cons_self _ _, hd⟩
      · rw [if_neg hd] at hacc
        exact Or.inr hacc

/-- A successful `lower` dict lookup returns a present column whose
lower-case form is the key. -/
theorem lowerLookup_some (cols : List String) (key c : String) :
    QcewRecon.lowerLookup cols key = some c → c ∈ cols ∧ pyLower c = key := by
  intro h
  rcases lowerLookup_fold cols key none c h with hgood | hbad
  · exact hgood
  · exact absurd hbad (by simp)

/-- A successful `pick` returns a present column that is (case-insensitively)
one of the requested aliases. -/
theorem pick_some (cols : List String) (opts : List String) (c : String) :
    QcewRecon.pick cols opts = some c → pyLower c ∈ opts ∧ c ∈ cols := by
  induction opts with
  | nil => intro h; exact absurd h (by simp [QcewRecon.pick])
  | cons o os ih =>
    intro h
    rcases hl : QcewRecon.lowerLookup cols o with _ | c'
    · simp only [QcewRecon.pick, hl] at h
      rcases ih h with ⟨h1, h2⟩
      exact ⟨List.mem_cons_of_mem _ h1, h2⟩
    · simp only [QcewRecon.pick, hl] at h
      have hcc : c' = c := Option.some.inj h
      obtain ⟨hmem, hlow⟩ := lowerLookup_some cols o c' hl
      rw [← hcc]
      exact ⟨hlow ▸ List.mem_cons_self _ _, hmem⟩

/-- The alias lists of the nine column specs are pairwise disjoint. -/
theorem specs_disjoint :
    ∀ p ∈ QcewRecon.requiredSpecs ++ QcewRecon.optionalSpecs,
      ∀ p' ∈ QcewRecon.requiredSpecs ++ QcewRecon.optionalSpecs,
        ∀ o, o ∈ p.2 → o ∈ p'.2 → p = p' := by decide

/-- A column picked for a spec is renamed to that spec's canonical name. -/
theorem renameOf_picked (cols : List String) (p : String × List String)
    (hp : p ∈ QcewRecon.requiredSpecs ++ QcewRecon.optionalSpecs) (c : String)
    (hc : QcewRecon.pick cols p.2 = some c) :
    QcewRecon.renameOf cols c = p.1 := by
  have hmem : (c, p.1) ∈ QcewRecon.renamesOf cols := by
    simp only [QcewRecon.renamesOf, List.mem_filterMap]
    exact ⟨p, hp, by rw [hc]; rfl⟩
  have hkeyuniq : ∀ pr ∈ QcewRecon.renamesOf cols, pr.1 = c → pr.2 = p.1 := by
    intro pr hpr hprc
    simp only [QcewRecon.renamesOf, List.mem_filterMap] at hpr
    obtain ⟨p', hp', hmap⟩ := hpr
    rcases hpick : QcewRecon.pick cols p'.2 with _ | c'
    · rw [hpick] at hmap; exact absurd hmap (by simp)
    · rw [hpick] at hmap
      obtain rfl : pr = (c', p'.1) := (Option.some.inj hmap).symm
      have hcc : c' = c := hprc
      have h1 := pick_some cols p.2 c hc
      have h2 := pick_some cols p'.2 c (hcc ▸ hpick)
      have hpp : p = p' := specs_disjoint p hp p' hp' (pyLower c) h1.1 h2.1
      show p'.1 = p.1
      rw [hpp]
  rcases hfind : (QcewRecon.renamesOf cols).find? (fun pr => decide (pr.1 = c)) with _ | pr
  · exfalso
    have := List.find?_eq_none.mp hfind (c, p.1) hmem
    simp at this
  · have hpr2 : pr ∈ QcewRecon.renamesOf cols := List.mem_of_find?_eq_some hfind
    have hprc : pr.1 = c := by simpa using List.find?_some hfind
    have hv : pr.2 = p.1 := hkeyuniq pr hpr2 hprc
    simp [QcewRecon.renameOf, hfind, hv]

/-- A column picked for no spec is left unchanged by the rename. -/
theorem renameOf_not_picked (cols : List String) (c : String)
    (h : ∀ p ∈ QcewRecon.requiredSpecs ++ QcewRecon.optionalSpecs,
      QcewRecon.pick cols p.2 ≠ some c) :
    QcewRecon.renameOf cols c = c := by
  rcases hfind : (QcewRecon.renamesOf cols).find? (fun pr => decide (pr.1 = c)) with _ | pr
  · simp [QcewRecon.renameOf, hfind]
  · exfalso
    have hpr2 : pr ∈ QcewRecon.renamesOf cols := List.mem_of_find?_eq_some hfind
    have hprc : pr.1 = c := by simpa using List.find?_some hfind
    simp only [QcewRecon.renamesOf, List.mem_filterMap] at hpr2
    obtain ⟨p', hp', hmap⟩ := hpr2
    rcases hpick : QcewRecon.pick cols p'.2 with _ | c'
    · rw [hpick] at hmap; exact absurd hmap (by simp)
    · rw [hpick] at hmap
      obtain rfl : pr = (c', p'.1) := (Option.some.inj hmap).symm
      have hcc : c' = c := hprc
      exact h p' hp' (by rw [hpick, hcc])

/-- C7: `_normalize_columns` raises `ValueError` listing exactly the required
canonical names with no present alias (the optional own_code / qtr columns
never cause the error), and otherwise renames the first present alias of each
column spec to its canonical name, leaving other columns unchanged. -/
theorem c7_normalize_columns (cols : List String) :
    (∀ m, QcewRecon._normalize_columns cols = Except.error m →
      m = QcewRecon.missingRequired cols ∧ m ≠ [] ∧
      (∀ x ∈ m, x ∈ QcewRecon.requiredSpecs.map Prod.fst) ∧
      "own_code" ∉ m ∧ "qtr" ∉ m) ∧
    (QcewRecon._normalize_columns cols =
        Except.error (QcewRecon.missingRequired cols) ↔
      QcewRecon.missingRequired cols ≠ []) ∧
    (QcewRecon.missingRequired cols = [] ↔
      ∀ p ∈ QcewRecon.requiredSpecs, QcewRecon.pick cols p.2 ≠ none) ∧
    (QcewRecon.missingRequired cols = [] →
      QcewRecon._normalize_columns cols =
        Except.ok (cols.map (QcewRecon.renameOf cols))) ∧
    (∀ p ∈ QcewRecon.requiredSpecs ++ QcewRecon.optionalSpecs, ∀ c,
      QcewRecon.pick cols p.2 = some c → QcewRecon.renameOf cols c = p.1) ∧
    (∀ c, (∀ p ∈ QcewRecon.requiredSpecs ++ QcewRecon.optionalSpecs,
      QcewRecon.pick cols p.2 ≠ some c) → QcewRecon.renameOf cols c = c) := by
  have hsub : ∀ x ∈ QcewRecon.missingRequired cols,
      x ∈ QcewRecon.requiredSpecs.map Prod.fst := by
    intro x hx
    simp only [QcewRecon.missingRequired, List.mem_map, List.mem_filter] at hx
    obtain ⟨p, ⟨hp, _⟩, rfl⟩ := hx
    exact List.mem_map_of_mem _ hp
  refine ⟨?_, ?_, ?_, ?_, ?_, ?_⟩
  · intro m h
    by_cases hm : QcewRecon.missingRequired cols = []
    · rw [QcewRecon._normalize_columns, if_neg (by simp [hm])] at h
      exact absurd h (by simp)
    · rw [QcewRecon._normalize_columns, if_pos hm] at h
      obtain rfl : QcewRecon.missingRequired cols = m := by
        simpa using h
      refine ⟨rfl, hm, hsub, fun hmem => ?_, fun hmem => ?_⟩
      · have := hsub _ hmem
        revert this
        decide
      · have := hsub _ hmem
        revert this
        decide
  · constructor
    · intro h hm
      rw [QcewRecon._normalize_columns, if_neg (by simp [hm])] at h
      exact absurd h (by simp)
    · intro hm
      rw [QcewRecon._normalize_columns, if_pos hm]
  · rw [QcewRecon.missingRequired]
    constructor
    · intro h p hp hnone
      have : p.1 ∈ ([] : List String) := by
        rw [← h]
        simp only [List.mem_map, List.mem_filter]
        exact ⟨p, ⟨hp, by simp [hnone]⟩, rfl⟩
      simp at this
    · intro h
      rw [List.map_eq_nil_iff, List.filter_eq_nil_iff]
      intro p hp
      simp only [Option.isNone_iff_eq_none]
      exact h p hp
  · intro hm
    rw [QcewRecon._normalize_columns, if_neg (by simp [hm])]
  · exact fun p hp c hc => renameOf_picked cols p hp c hc
  · exact fun c hc => renameOf_not_picked cols c hc

end RdmQa

namespace RdmQa

/-- The merge-key order is total. -/
theorem keyLE_total (a b : ℤ × List ℕ × List ℕ) :
    Integration.keyLE a b ∨ Integration.keyLE b a := by
  unfold Integration.keyLE
  rcases lt_trichotomy a.1 b.1 with h | h | h
  · exact Or.inl (Or.inl h)
  · rcases lt_trichotomy a.2.1 b.2.1 with h2 | h2 | h2
    · exact Or.inl (Or.inr ⟨h, Or.inl h2⟩)
    · rcases le_total a.2.2 b.2.2 with h3 | h3
      · exact Or.inl (Or.inr ⟨h, Or.inr ⟨h2, h3⟩⟩)
      · exact Or.inr (Or.inr ⟨h.symm, Or.inr ⟨h2.symm, h3⟩⟩)
    · exact Or.inr (Or.inr ⟨h.symm, Or.inl h2⟩)
  · exact Or.inr (Or.inl h)

/-- The merge-key order is transitive. -/
theorem keyLE_trans (a b c : ℤ × List ℕ × List ℕ) :
    Integration.keyLE a b → Integration.keyLE b c → Integration.keyLE a c := by
  unfold Integration.keyLE
  rintro (h1 | ⟨e1, h1⟩) (h2 | ⟨e2, h2⟩)
  · exact Or.inl (h1.trans h2)
  · exact Or.inl (by rw [← e2]; exact h1)
  · exact Or.inl (by rw [e1]; exact h2)
  · refine Or.inr ⟨e1.trans e2, ?_⟩
    rcases h1 with h1 | ⟨f1, h1⟩ <;> rcases h2 with h2 | ⟨f2, h2⟩
    · exact Or.inl (h1.trans h2)
    · exact Or.inl (by rw [← f2]; exact h1)
    · exact Or.inl (by rw [f1]; exact h2)
    · exact Or.inr ⟨f1.trans f2, h1.trans h2⟩

/-- `duplicated` marks nothing iff the keys are distinct and unseen. -/
theorem dupFlags_count_zero (l : List (ℤ × String × String)) :
    ∀ seen, ((Integration.dupFlags seen l).count true = 0) ↔
      (l.Nodup ∧ ∀ x ∈ l, x ∉ seen) := by
  induction l with
  | nil => intro seen; simp [Integration.dupFlags]
  | cons k ks ih =>
    intro seen
    rw [show Integration.dupFlags seen (k :: ks) =
      decide (k ∈ seen) :: Integration.dupFlags (k :: seen) ks from rfl]
    by_cases hk : k ∈ seen
    · constructor
      · intro h
        rw [decide_eq_true hk] at h
        simp [List.count_cons] at h
      · rintro ⟨_, hall⟩
        exact absurd hk (hall k (List.mem_cons_self _ _))
    · rw [decide_eq_false hk]
      rw [List.count_cons]
      simp only [show ((false == true) = true) = False by simp, if_false, Nat.add_zero]
      rw [ih (k :: seen)]
      constructor
      · rintro ⟨hnd, hall⟩
        refine ⟨List.nodup_cons.mpr
          ⟨fun hkk => absurd (List.mem_cons_self k seen) (hall k hkk), hnd⟩, ?_⟩
        intro x hx
        rcases List.mem_cons.mp hx with rfl | hx'
        · exact hk
        · exact fun hxs => (hall x hx') (List.mem_cons_of_mem _ hxs)
      · rintro ⟨hnd, hall⟩
        obtain ⟨hkks, hnd'⟩ := List.nodup_cons.mp hnd
        refine ⟨hnd', ?_⟩
        intro x hx hxk
        rcases List.mem_cons.mp hxk with rfl | hxs
        · exact hkks hx
        · exact (hall x (List.mem_cons_of_mem _ hx)) hxs

/-- The duplicate count of `assemble` is zero iff the keys are pairwise
distinct. -/
theorem dupCount_zero_iff (ks : List (ℤ × String × String)) :
    Integration.dupCount ks = 0 ↔ ks.Nodup := by
  rw [Integration.dupCount, dupFlags_count_zero ks []]
  simp

/-- The left population merge emits at least one row, carrying the same merge
key, for every input row. -/
theorem enrich_row_key_mem (ref : List Integration.RefRow) (r : Integration.FactRow) :
    Integration.factKey r ∈ (Integration.enrich_row ref r).map Integration.factKey := by
  unfold Integration.enrich_row
  rcases hms : ref.filter
      (fun t => decide (t.state_cnty_fips_cd = r.state_cnty_fips_cd)) with _ | ⟨t, ts⟩
  · rw [hms]
    exact List.mem_cons_self _ _
  · rw [hms, List.map_map]
    have hconst : (Integration.factKey ∘
        fun (t : Integration.RefRow) => { r with population_num := t.population_num }) =
        fun _ => Integration.factKey r := rfl
    rw [hconst, List.map_const']
    exact List.mem_replicate.mpr ⟨by simp, rfl⟩

/-- A merge key present among the input rows is present among the
population-enriched rows. -/
theorem enrich_keys_mem (df : List Integration.FactRow) (ref : List Integration.RefRow)
    (k : ℤ × String × String) :
    k ∈ df.map Integration.factKey →
      k ∈ (Integration.enrich_population df ref).map Integration.factKey := by
  induction df with
  | nil => simp
  | cons r rs ih =>
    intro hk
    rw [Integration.enrich_population, List.flatMap_cons, List.map_append]
    rcases List.mem_cons.mp hk with rfl | hk'
    · exact List.mem_append_left _ (enrich_row_key_mem ref r)
    · exact List.mem_append_right _ (ih hk')

/-- Distinct keys after the population merge imply distinct keys before it. -/
theorem enrich_nodup (df : List Integration.FactRow) (ref : List Integration.RefRow) :
    ((Integration.enrich_population df ref).map Integration.factKey).Nodup →
      (df.map Integration.factKey).Nodup := by
  induction df with
  | nil => simp
  | cons r rs ih =>
    rw [Integration.enrich_population, List.flatMap_cons, List.map_append]
    intro h
    obtain ⟨hA, hB, hdisj⟩ := List.nodup_append.mp h
    rw [List.map_cons]
    refine List.nodup_cons.mpr ⟨?_, ih hB⟩
    intro hmem
    exact hdisj (enrich_row_key_mem ref r) (enrich_keys_mem rs ref _ hmem)

/-- Deriving the ratio metrics does not touch the merge key. -/
theorem derive_keys (df : List Integration.FactRow) :
    (df.map Integration.derive_metrics).map Integration.factKey =
      df.map Integration.factKey := by
  rw [List.map_map]
  rfl

/-- C6: a successful `assemble` returns a fact table with pairwise-distinct
`(year_num, state_cnty_fips_cd, naics2_sector_cd)` keys, sorted by that key;
and when the concatenated merged data repeats a key, `assemble` raises
`AssertionError` (carrying the duplicate count) instead of returning. -/
theorem c6_assemble_unique_sorted
    (yearData : List (ℤ × List Integration.AbsRow × List Integration.QcewRow))
    (ref : List Integration.RefRow) :
    (∀ out, Integration.assemble yearData ref = Except.ok out →
      (out.map Integration.factKey).Nodup ∧ List.Sorted Integration.rowLE out) ∧
    (¬ ((Integration.combined_frames yearData).map Integration.factKey).Nodup →
      ∃ n, Integration.assemble yearData ref = Except.error n) := by
  haveI htot : IsTotal Integration.FactRow Integration.rowLE :=
    ⟨fun a b => keyLE_total (Integration.sortKey a) (Integration.sortKey b)⟩
  haveI htr : IsTrans Integration.FactRow Integration.rowLE :=
    ⟨fun a b c => keyLE_trans (Integration.sortKey a) (Integration.sortKey b)
      (Integration.sortKey c)⟩
  constructor
  · intro out hout
    rw [Integration.assemble] at hout
    by_cases hd : Integration.dupCount
        ((List.insertionSort Integration.rowLE
          (Integration.enrich_population
            ((Integration.combined_frames yearData).map Integration.derive_metrics)
            ref)).map Integration.factKey) = 0
    · rw [if_pos hd] at hout
      obtain rfl : List.insertionSort Integration.rowLE
          (Integration.enrich_population
            ((Integration.combined_frames yearData).map Integration.derive_metrics)
            ref) = out := by simpa using hout
      exact ⟨(dupCount_zero_iff _).mp hd,
        List.sorted_insertionSort Integration.rowLE _⟩
    · rw [if_neg hd] at hout
      exact absurd hout (by simp)
  · intro hdup
    set enriched := Integration.enrich_population
      ((Integration.combined_frames yearData).map Integration.derive_metrics) ref with henr
    have hd : Integration.dupCount ((List.insertionSort Integration.rowLE
        enriched).map Integration.factKey) ≠ 0 := by
      intro h0
      have hsortnodup := (dupCount_zero_iff _).mp h0
      have hperm := (List.perm_insertionSort Integration.rowLE enriched).map
        Integration.factKey
      have henrnodup : (enriched.map Integration.factKey).Nodup :=
        hperm.nodup_iff.mp hsortnodup
      have hcombined := enrich_nodup
        ((Integration.combined_frames yearData).map Integration.derive_metrics)
        ref henrnodup
      rw [derive_keys] at hcombined
      exact hdup hcombined
    refine ⟨Integration.dupCount ((List.insertionSort Integration.rowLE
        enriched).map Integration.factKey), ?_⟩
    rw [Integration.assemble, henr, if_neg hd]

/-- C6 witness: a clean one-year run returns the sorted two-row table, and an
input repeating an ABS key makes `assemble` fail. -/
theorem c6_assemble_unique_sorted_witness :
    (([w6outA, w6outB].map Integration.factKey).Nodup ∧
      List.Sorted Integration.rowLE [w6outA, w6outB]) ∧
    (∃ n, Integration.assemble w6dup [] = Except.error n) :=
  ⟨(c6_assemble_unique_sorted w6data []).1 [w6outA, w6outB] rfl,
   (c6_assemble_unique_sorted w6dup []).2 (by decide)⟩

/-- C7 witness: a fully-aliased column list (with a case-insensitive county
alias) normalizes, and a one-column list raises with the six other required
names — never the optional ones — listed. -/
theorem c7_normalize_columns_witness :
    QcewRecon._normalize_columns
        ["AREA_FIPS", "industry_code", "year", "annual_avg_emplvl",
         "total_annual_wages", "annual_avg_wkly_wage", "agglvl_code"] =
      Except.ok
        (["AREA_FIPS", "industry_code", "year", "annual_avg_emplvl",
          "total_annual_wages", "annual_avg_wkly_wage", "agglvl_code"].map
          (QcewRecon.renameOf
            ["AREA_FIPS", "industry_code", "year", "annual_avg_emplvl",
             "total_annual_wages", "annual_avg_wkly_wage", "agglvl_code"])) ∧
    (QcewRecon.missingRequired ["area_fips"] ≠ [] ∧
      "own_code" ∉ QcewRecon.missingRequired ["area_fips"] ∧
      "qtr" ∉ QcewRecon.missingRequired ["area_fips"]) := by
  have herr := (c7_normalize_columns ["area_fips"]).2.1.mpr (by decide)
  have h := (c7_normalize_columns ["area_fips"]).1 _ herr
  exact ⟨(c7_normalize_columns _).2.2.2.1 (by decide),
    ⟨h.2.1, h.2.2.2.1, h.2.2.2.2⟩⟩

end RdmQa
